import Mathlib

/-!
Verification of the gesture-to-control pipeline of the `hands` particle
visualization (source: `app.js` and companion modules).  Numeric values are
modelled over `ℚ` where the JavaScript arithmetic is rational (additions,
multiplications, comparisons against decimal constants) and over `ℝ` where the
source uses `Math.sqrt`, `Math.sin` or `Math.PI`.  Stateful code is embedded as
explicit state passing: each mutating JavaScript function becomes a Lean
function from the old state (plus the frame inputs) to the new state.
-/

namespace Hands

/-! ## CONFIG constants (`app.js`, `CONFIG`) -/

/-- `CONFIG.gestures.modeThresholds.enter` -/
def enterThreshold : ℚ := 0.6

/-- `CONFIG.gestures.modeThresholds.exit` -/
def exitThreshold : ℚ := 0.35

/-- `CONFIG.gestures.modeThresholds.decay` -/
def decayRate : ℚ := 0.05

/-- `CONFIG.gestures.swipeThreshold` -/
def swipeThreshold : ℚ := 0.15

/-- `CONFIG.gestures.swipeCooldown` (milliseconds) -/
def swipeCooldown : ℚ := 1000

/-- `CONFIG.gestures.swipeVelocityMin` -/
def swipeVelocityMin : ℚ := 0.15

/-- `CONFIG.physics.baseRotationSpeed` -/
def baseRotationSpeed : ℚ := 0.05

/-- `CONFIG.physics.maxGestureRotationSpeed` -/
def maxGestureRotationSpeed : ℚ := 3.0

/-- `CONFIG.physics.fistRotationMultiplier` -/
def fistRotationMultiplier : ℚ := 1.75

/-- `CONFIG.physics.minRotationVelocity` -/
def minRotationVelocity : ℚ := 0.15

/-- `CONFIG.physics.rotationIdleDecay` -/
def rotationIdleDecay : ℚ := 0.15

/-! ## Gesture state machine (`app.js`, `commitGestureState`) -/

/-- The mutable `gestureState` object: `{ active: 'Auto Mode', confidence: 0.4 }`. -/
structure GestureState where
  active : String
  confidence : ℚ
  deriving Repr, DecidableEq

/-- Initial value of `gestureState` (`app.js` line 389). -/
def initialGestureState : GestureState := { active := "Auto Mode", confidence := 0.4 }

/-- `commitGestureState(label, intensity)` (`app.js` lines 1539-1551), as a pure
state transformer.  The call to `updateGestureFeedback` only touches the DOM and
is omitted. -/
def commitGestureState (s : GestureState) (label : String) (intensity : ℚ) : GestureState :=
  if s.active = label then
    { s with confidence := min 1 (s.confidence + intensity) }
  else
    let decayed := max 0 (s.confidence - decayRate)
    if decayed ≤ exitThreshold then
      { active := label, confidence := enterThreshold + intensity }
    else
      { s with confidence := decayed }

/-- Result of `n` consecutive ticks all observing `label` with `intensity`. -/
def commitTicks (s : GestureState) (label : String) (intensity : ℚ) : ℕ → GestureState
  | 0 => s
  | n + 1 => commitGestureState (commitTicks s label intensity n) label intensity

end Hands

namespace Hands

/-! ## C1: behaviour of `commitGestureState` on every tick -/

/-- Case equation: matching observation. -/
theorem commit_eq_of_same (s : GestureState) (label : String) (i : ℚ)
    (h : s.active = label) :
    commitGestureState s label i = { s with confidence := min 1 (s.confidence + i) } := by
  simp [commitGestureState, h]

/-- Case equation: differing observation with decayed confidence at or below exit. -/
theorem commit_eq_of_diff_low (s : GestureState) (label : String) (i : ℚ)
    (hne : s.active ≠ label) (hd : max 0 (s.confidence - decayRate) ≤ exitThreshold) :
    commitGestureState s label i = ⟨label, enterThreshold + i⟩ := by
  simp [commitGestureState, hne, hd]

/-- Case equation: differing observation with decayed confidence above exit. -/
theorem commit_eq_of_diff_high (s : GestureState) (label : String) (i : ℚ)
    (hne : s.active ≠ label) (hd : ¬ max 0 (s.confidence - decayRate) ≤ exitThreshold) :
    commitGestureState s label i = { s with confidence := max 0 (s.confidence - decayRate) } := by
  simp [commitGestureState, hne, hd]

/-- **C1.** On every tick of the gesture state machine: if the observed label
equals the active label, confidence increases by the intensity amount capped at
1 and the active label is unchanged; if it differs, confidence becomes the old
confidence minus the decay rate 0.05 floored at 0, and the observed label
becomes active (re-seeded at enter threshold 0.6 plus intensity) exactly when
that decayed confidence is at or below the exit threshold 0.35; in every other
case the active label is unchanged. -/
theorem commitGestureState_tick (s : GestureState) (label : String) (intensity : ℚ) :
    (s.active = label →
      (commitGestureState s label intensity).active = s.active ∧
      (commitGestureState s label intensity).confidence = min 1 (s.confidence + intensity)) ∧
    (s.active ≠ label →
      ((commitGestureState s label intensity).active ≠ s.active ↔
        max 0 (s.confidence - decayRate) ≤ exitThreshold) ∧
      (max 0 (s.confidence - decayRate) ≤ exitThreshold →
        (commitGestureState s label intensity).active = label ∧
        (commitGestureState s label intensity).confidence = enterThreshold + intensity) ∧
      (¬ max 0 (s.confidence - decayRate) ≤ exitThreshold →
        (commitGestureState s label intensity).active = s.active ∧
        (commitGestureState s label intensity).confidence =
          max 0 (s.confidence - decayRate))) := by
  constructor
  · intro h
    rw [commit_eq_of_same s label intensity h]
    exact ⟨rfl, rfl⟩
  · intro hne
    by_cases hd : max 0 (s.confidence - decayRate) ≤ exitThreshold
    · rw [commit_eq_of_diff_low s label intensity hne hd]
      refine ⟨⟨fun _ => hd, fun _ => fun hc => hne hc.symm⟩, fun _ => ⟨rfl, rfl⟩,
        fun h => absurd hd h⟩
    · rw [commit_eq_of_diff_high s label intensity hne hd]
      refine ⟨⟨fun hc => absurd rfl hc, fun h => absurd h hd⟩, fun h => absurd h hd,
        fun _ => ⟨rfl, rfl⟩⟩

/-- Witness for C1 at a concrete state: observing a differing label at
confidence 0.5 keeps the active label (0.45 > 0.35). -/
theorem commitGestureState_tick_witness :
    (commitGestureState ⟨"A", 0.5⟩ "B" 0.05).active = "A" ∧
    (commitGestureState ⟨"A", 0.5⟩ "B" 0.05).confidence = max 0 (0.5 - decayRate) := by
  have h := commitGestureState_tick ⟨"A", 0.5⟩ "B" 0.05
  have hne : ("A" : String) ≠ "B" := by decide
  have h2 := (h.2 hne).2.2 (by norm_num [decayRate, exitThreshold])
  exact h2

/-! ## C2: debounced label switching -/

/-- Helper: while confidence stays strictly above `exit + n*decay`, `n`
consecutive ticks observing a differing label decay confidence linearly and
never change the active label. -/
theorem commitTicks_diff_active (s : GestureState) (label : String) (i : ℚ)
    (hne : s.active ≠ label) :
    ∀ n : ℕ, exitThreshold + n * decayRate < s.confidence →
      (commitTicks s label i n).active = s.active ∧
      (commitTicks s label i n).confidence = s.confidence - n * decayRate := by
  intro n
  induction n with
  | zero => intro _; simp [commitTicks]
  | succ n ih =>
    intro h
    have hdpos : (0 : ℚ) < decayRate := by norm_num [decayRate]
    have hn : exitThreshold + n * decayRate < s.confidence := by
      have : (n : ℚ) * decayRate < (n + 1 : ℕ) * decayRate := by
        push_cast
        nlinarith
      linarith
    obtain ⟨hact, hconf⟩ := ih hn
    have hne' : (commitTicks s label i n).active ≠ label := by rw [hact]; exact hne
    have hkey : exitThreshold < s.confidence - ((n : ℚ) * decayRate + decayRate) := by
      push_cast at h
      linarith
    have hexpos : (0 : ℚ) < exitThreshold := by norm_num [exitThreshold]
    have hmax : max 0 ((commitTicks s label i n).confidence - decayRate) =
        s.confidence - (n + 1 : ℕ) * decayRate := by
      rw [hconf]
      push_cast
      rw [max_eq_right (by linarith)]
      ring
    have hnotle : ¬ max 0 ((commitTicks s label i n).confidence - decayRate) ≤ exitThreshold := by
      rw [hmax]
      push_cast
      linarith
    rw [commitTicks, commit_eq_of_diff_high _ _ _ hne' hnotle]
    exact ⟨hact, hmax⟩

/-- C2 fails on the code at the initial state `{active := "Auto Mode",
confidence := 0.4}`: a single differing tick decays confidence to 0.35, which
is at the exit threshold, so the active label flips immediately. -/
theorem singleTick_flips_initialState :
    (commitGestureState initialGestureState "Gestures Disabled" 0.1).active ≠
      initialGestureState.active := by
  have hne : initialGestureState.active ≠ "Gestures Disabled" := by decide
  rw [commit_eq_of_diff_low initialGestureState "Gestures Disabled" 0.1 hne]
  · decide
  · show max 0 (initialGestureState.confidence - decayRate) ≤ exitThreshold
    rw [show initialGestureState.confidence - decayRate = 0.35 by
      norm_num [initialGestureState, decayRate]]
    rw [max_eq_right (by norm_num)]
    norm_num [exitThreshold]

/-- **C2 (amended).** A single tick whose observed label differs from the
active label leaves the active label unchanged provided the current confidence
strictly exceeds exit + decay = 0.40 (this excludes the initial state, whose
confidence is exactly 0.40); in particular, from any state whose confidence is
at least the enter threshold 0.6 — such as every state just committed by a
label transition — up to four consecutive differing ticks never change the
active label, so switching from such a state requires differing observations
sustained over at least five consecutive ticks. -/
theorem commitGestureState_debounce (s : GestureState) (label : String) (i : ℚ) :
    (exitThreshold + decayRate < s.confidence →
      (commitGestureState s label i).active = s.active) ∧
    (s.active ≠ label → enterThreshold ≤ s.confidence →
      ∀ n : ℕ, n ≤ 4 → (commitTicks s label i n).active = s.active) := by
  constructor
  · intro h
    by_cases heq : s.active = label
    · rw [commit_eq_of_same s label i heq]
    · have hd : ¬ max 0 (s.confidence - decayRate) ≤ exitThreshold := by
        rw [max_eq_right]
        · linarith
        · have : (0 : ℚ) < exitThreshold := by norm_num [exitThreshold]
          linarith
      rw [commit_eq_of_diff_high s label i heq hd]
  · intro hne hconf n hn
    have h : exitThreshold + n * decayRate < s.confidence := by
      have : (n : ℚ) * decayRate ≤ 4 * decayRate := by
        have : (n : ℚ) ≤ 4 := by exact_mod_cast hn
        nlinarith [show (0:ℚ) < decayRate by norm_num [decayRate]]
      have h1 : exitThreshold + 4 * decayRate < enterThreshold := by
        norm_num [exitThreshold, decayRate, enterThreshold]
      linarith
    exact (commitTicks_diff_active s label i hne n h).1

/-- Witness for C2 (amended): from a freshly committed state with confidence 1,
one differing tick and four consecutive differing ticks both leave the active
label unchanged. -/
theorem commitGestureState_debounce_witness :
    (commitGestureState ⟨"A", 1⟩ "B" 0.05).active = "A" ∧
    (commitTicks ⟨"A", 1⟩ "B" 0.05 4).active = "A" := by
  refine ⟨(commitGestureState_debounce ⟨"A", 1⟩ "B" 0.05).1 ?_,
    (commitGestureState_debounce ⟨"A", 1⟩ "B" 0.05).2 (by decide) ?_ 4 (by norm_num)⟩
  · norm_num [exitThreshold, decayRate]
  · norm_num [enterThreshold]

/-! ## One Euro filter (`app.js`, classes `LowPassFilter` and `OneEuroFilter`)

The JavaScript uses `Math.PI` and floating point; the embedding works over `ℝ`
with `Real.pi`, translating each mutating method into a state-passing
function. -/

/-- State of `LowPassFilter`: `alpha`, `initialized`, `prev`. -/
structure LowPassFilter where
  alpha : ℝ
  initialized : Bool
  prev : ℝ

/-- `LowPassFilter.setAlpha` clamps the coefficient to [0, 1]. -/
noncomputable def LowPassFilter.setAlpha (f : LowPassFilter) (alpha : ℝ) : LowPassFilter :=
  { f with alpha := max 0 (min 1 alpha) }

/-- `new LowPassFilter(alpha, initialValue = 0)`. -/
noncomputable def mkLowPassFilter (alpha : ℝ) (initialValue : ℝ := 0) : LowPassFilter :=
  { alpha := max 0 (min 1 alpha), initialized := false, prev := initialValue }

/-- `LowPassFilter.filter(value)`: returns the result and the updated state. -/
def LowPassFilter.filter (f : LowPassFilter) (value : ℝ) : ℝ × LowPassFilter :=
  let result := if f.initialized then f.alpha * value + (1 - f.alpha) * f.prev else value
  (result, { f with prev := result, initialized := true })

/-- State of `OneEuroFilter`. -/
structure OneEuroFilter where
  freq : ℝ
  minCutoff : ℝ
  beta : ℝ
  dCutoff : ℝ
  xFilter : LowPassFilter
  dxFilter : LowPassFilter
  lastTime : Option ℝ

/-- `OneEuroFilter.alpha(cutoff)` for a given current frequency. -/
noncomputable def oneEuroAlpha (freq cutoff : ℝ) : ℝ :=
  let te := 1 / freq
  let tau := 1 / (2 * Real.pi * cutoff)
  1 / (1 + tau / te)

/-- `new OneEuroFilter(freq, minCutoff = 1.0, beta = 0, dCutoff = 1.0)`. -/
noncomputable def mkOneEuroFilter (freq : ℝ) (minCutoff : ℝ := 1.0) (beta : ℝ := 0)
    (dCutoff : ℝ := 1.0) : OneEuroFilter :=
  { freq := freq, minCutoff := minCutoff, beta := beta, dCutoff := dCutoff,
    xFilter := mkLowPassFilter (oneEuroAlpha freq minCutoff),
    dxFilter := mkLowPassFilter (oneEuroAlpha freq dCutoff),
    lastTime := none }

/-- `OneEuroFilter.filter(value, timestamp)`: returns the smoothed value and the
updated filter state. -/
noncomputable def OneEuroFilter.filter (f : OneEuroFilter) (value timestamp : ℝ) :
    ℝ × OneEuroFilter :=
  let freq := match f.lastTime with
    | some lastTime => if timestamp - lastTime > 0 then 1 / (timestamp - lastTime) else f.freq
    | none => f.freq
  let dValue := if f.xFilter.initialized then (value - f.xFilter.prev) * freq else 0
  let ed := f.dxFilter.filter dValue
  let cutoff := f.minCutoff + f.beta * |ed.1|
  let xf := (f.xFilter.setAlpha (oneEuroAlpha freq cutoff)).filter value
  (xf.1,
    { f with
      freq := freq
      xFilter := xf.2
      dxFilter := ed.2
      lastTime := some timestamp })

/-! ## Landmark filter bank (`app.js`, `filterLandmarks` and `clearUnusedFilters`)

The `Map` objects `landmarkFilterBank` and `fingerVelocityHistory` are embedded
as association lists in which `set` prepends and `lookup` finds the most recent
binding. -/

/-- The two lazily-populated per-key maps. -/
structure FilterBanks where
  landmarkFilterBank : List (String × OneEuroFilter)
  fingerVelocityHistory : List (String × (ℝ × ℝ × ℝ))

/-- The per-axis body of `filterLandmarks` (`app.js` lines 1503-1518): create
the key's filter on first sight with the `CONFIG.filters` constants, then run
it on the raw value. -/
noncomputable def landmarkFilterApply (bank : List (String × OneEuroFilter)) (key : String)
    (value timestamp : ℝ) : ℝ × List (String × OneEuroFilter) :=
  let f := match bank.lookup key with
    | some f => f
    | none => mkOneEuroFilter 60 1.0 0.08 1.0
  let r := f.filter value timestamp
  (r.1, (key, r.2) :: bank)

/-- `clearUnusedFilters(activeHandCount)` (`app.js` lines 1524-1529). -/
def clearUnusedFilters (activeHandCount : ℕ) (b : FilterBanks) : FilterBanks :=
  if activeHandCount = 0 ∧ b.landmarkFilterBank.length > 0 then
    { landmarkFilterBank := [], fingerVelocityHistory := [] }
  else b

/-! ## C3: first filtered value is the raw input -/

/-- Helper: a freshly constructed One Euro filter returns the raw value. -/
theorem mkOneEuroFilter_first_call (freq minCutoff beta dCutoff value t : ℝ) :
    ((mkOneEuroFilter freq minCutoff beta dCutoff).filter value t).1 = value := by
  simp [mkOneEuroFilter, mkLowPassFilter, OneEuroFilter.filter, LowPassFilter.filter,
    LowPassFilter.setAlpha]

/-- Helper: clearing with hand count zero always leaves an empty bank. -/
theorem clearUnusedFilters_zero (b : FilterBanks) :
    (clearUnusedFilters 0 b).landmarkFilterBank = [] := by
  unfold clearUnusedFilters
  rcases b with ⟨bank, hist⟩
  cases bank with
  | nil => simp
  | cons hd tl => simp

/-- **C3.** The first call of a per-key One Euro filter after its state is
created returns the raw input value exactly; and after the filter bank is
cleared on a hand count of zero, the first filtered value for any key equals
the raw input exactly — no stale derivative state survives the clear. -/
theorem firstFilteredValue_is_raw (freq minCutoff beta dCutoff value t : ℝ)
    (b : FilterBanks) (key : String) :
    ((mkOneEuroFilter freq minCutoff beta dCutoff).filter value t).1 = value ∧
    (landmarkFilterApply (clearUnusedFilters 0 b).landmarkFilterBank key value t).1 = value := by
  refine ⟨mkOneEuroFilter_first_call freq minCutoff beta dCutoff value t, ?_⟩
  rw [clearUnusedFilters_zero b]
  simp only [landmarkFilterApply, List.lookup]
  exact mkOneEuroFilter_first_call 60 1.0 0.08 1.0 value t

/-! ## Hand geometry (`app.js`, `getHandScale` and `countExtendedFingers`)

A hand is the MediaPipe array of 21 landmarks; the embedding uses a function
from the landmark index, with only indices 0-20 ever accessed. -/

/-- One landmark `{x, y, z}`. -/
structure Landmark where
  x : ℝ
  y : ℝ
  z : ℝ

/-- A structurally valid 21-point hand (indices 0-20 carry the data). -/
abbrev Hand := ℕ → Landmark

/-- `Math.hypot(dx, dy)`. -/
noncomputable def hypot (dx dy : ℝ) : ℝ := Real.sqrt (dx ^ 2 + dy ^ 2)

/-- The unclamped palm measurement `(palmWidth + palmLength) * 0.5` inside
`getHandScale` (`app.js` lines 1810-1817). -/
noncomputable def rawHandScale (hand : Hand) : ℝ :=
  let wrist := hand 0
  let indexBase := hand 5
  let pinkyBase := hand 17
  let palmWidth := hypot (indexBase.x - pinkyBase.x) (indexBase.y - pinkyBase.y)
  let palmLength := hypot ((hand 9).x - wrist.x) ((hand 9).y - wrist.y)
  (palmWidth + palmLength) * 0.5

/-- `getHandScale(hand)`: the palm measurement floor-clamped at 0.01. -/
noncomputable def getHandScale (hand : Hand) : ℝ := max 0.01 (rawHandScale hand)

/-- `countExtendedFingers(hand)` (`app.js` lines 1875-1892): the thumb counts
when the horizontal tip-to-IP offset exceeds a scale-relative threshold, each
other finger when its tip sits above its PIP joint by a scale-relative
threshold. -/
noncomputable def countExtendedFingers (hand : Hand) : ℕ :=
  let handScale := getHandScale hand
  let fingerThreshold := max 0.02 (0.18 * handScale)
  let thumbThreshold := max 0.02 (0.35 * handScale)
  let thumbDist := |(hand 4).x - (hand 2).x|
  (if thumbDist > thumbThreshold then 1 else 0) +
  (if (hand 6).y - (hand 8).y > fingerThreshold then 1 else 0) +
  (if (hand 10).y - (hand 12).y > fingerThreshold then 1 else 0) +
  (if (hand 14).y - (hand 16).y > fingerThreshold then 1 else 0) +
  (if (hand 18).y - (hand 20).y > fingerThreshold then 1 else 0)

/-- Scaling every landmark by a constant factor about the wrist (landmark 0). -/
noncomputable def scaleHand (s : ℝ) (hand : Hand) : Hand := fun i =>
  { x := (hand 0).x + s * ((hand i).x - (hand 0).x)
    y := (hand 0).y + s * ((hand i).y - (hand 0).y)
    z := (hand 0).z + s * ((hand i).z - (hand 0).z) }

@[simp] theorem scaleHand_x (s : ℝ) (hand : Hand) (i : ℕ) :
    (scaleHand s hand i).x = (hand 0).x + s * ((hand i).x - (hand 0).x) := rfl

@[simp] theorem scaleHand_y (s : ℝ) (hand : Hand) (i : ℕ) :
    (scaleHand s hand i).y = (hand 0).y + s * ((hand i).y - (hand 0).y) := rfl

/-- `Math.hypot` commutes with nonnegative scaling. -/
theorem hypot_smul (s dx dy : ℝ) (hs : 0 ≤ s) :
    hypot (s * dx) (s * dy) = s * hypot dx dy := by
  unfold hypot
  rw [show (s * dx) ^ 2 + (s * dy) ^ 2 = s ^ 2 * (dx ^ 2 + dy ^ 2) by ring,
    Real.sqrt_mul (sq_nonneg s), Real.sqrt_sq hs]

/-- The palm measurement scales linearly with the hand. -/
theorem rawHandScale_scaleHand (s : ℝ) (hand : Hand) (hs : 0 ≤ s) :
    rawHandScale (scaleHand s hand) = s * rawHandScale hand := by
  have e1 : (scaleHand s hand 5).x - (scaleHand s hand 17).x =
      s * ((hand 5).x - (hand 17).x) := by simp only [scaleHand_x]; ring
  have e2 : (scaleHand s hand 5).y - (scaleHand s hand 17).y =
      s * ((hand 5).y - (hand 17).y) := by simp only [scaleHand_y]; ring
  have e3 : (scaleHand s hand 9).x - (scaleHand s hand 0).x =
      s * ((hand 9).x - (hand 0).x) := by simp only [scaleHand_x]; ring
  have e4 : (scaleHand s hand 9).y - (scaleHand s hand 0).y =
      s * ((hand 9).y - (hand 0).y) := by simp only [scaleHand_y]; ring
  simp only [rawHandScale, e1, e2, e3, e4, hypot_smul _ _ _ hs]
  ring

/-! ## C5: scale invariance of the extended-finger count -/

/-- C5 fails on the code for small scale factors because of the absolute
clamps: shrinking this hand by 1/100 drives the thresholds into their fixed
floors (`max 0.01`, `max 0.02`) while the landmark offsets keep shrinking, so
the thumb stops being counted. -/
noncomputable def hand0 : Hand := fun i =>
  if i = 0 then ⟨0, 1, 0⟩
  else if i = 5 then ⟨0.2, 1, 0⟩
  else if i = 17 then ⟨-0.2, 1, 0⟩
  else if i = 9 then ⟨0, 0.6, 0⟩
  else if i = 4 then ⟨0.2, 0, 0⟩
  else ⟨0, 0, 0⟩

/-- The palm measurement of the concrete hand evaluates to 0.4. -/
theorem rawHandScale_hand0 : rawHandScale hand0 = 0.4 := by
  have hyp1 : hypot 0.4 0 = 0.4 := by
    unfold hypot
    rw [show (0.4 : ℝ) ^ 2 + 0 ^ 2 = 0.4 ^ 2 by ring]
    exact Real.sqrt_sq (by norm_num)
  have hyp2 : hypot 0 (-0.4) = 0.4 := by
    unfold hypot
    rw [show (0 : ℝ) ^ 2 + (-0.4) ^ 2 = 0.4 ^ 2 by ring]
    exact Real.sqrt_sq (by norm_num)
  have e : rawHandScale hand0 =
      (hypot (0.2 - -0.2) (1 - 1) + hypot (0 - 0) (0.6 - 1)) * 0.5 := rfl
  rw [e, show (0.2 : ℝ) - -0.2 = 0.4 by norm_num, show (1 : ℝ) - 1 = 0 by norm_num,
    show (0 : ℝ) - 0 = 0 by norm_num, show (0.6 : ℝ) - 1 = -0.4 by norm_num, hyp1, hyp2]
  norm_num

/-- The concrete hand shows exactly one extended finger (the thumb). -/
theorem countExtendedFingers_hand0 : countExtendedFingers hand0 = 1 := by
  have hg : getHandScale hand0 = 0.4 := by
    rw [getHandScale, rawHandScale_hand0]
    exact max_eq_right (by norm_num)
  have hmax1 : max (0.02 : ℝ) (0.35 * 0.4) = 0.14 := by
    rw [max_eq_right (by norm_num)]; norm_num
  have hmax2 : max (0.02 : ℝ) (0.18 * 0.4) = 0.072 := by
    rw [max_eq_right (by norm_num)]; norm_num
  have c1 : |(hand0 4).x - (hand0 2).x| > max 0.02 (0.35 * getHandScale hand0) := by
    rw [hg, hmax1, show (hand0 4).x = 0.2 from rfl, show (hand0 2).x = 0 from rfl,
      sub_zero, abs_of_pos (by norm_num)]
    norm_num
  have c2 : ¬ ((hand0 6).y - (hand0 8).y > max 0.02 (0.18 * getHandScale hand0)) := by
    rw [hg, hmax2, show (hand0 6).y = 0 from rfl, show (hand0 8).y = 0 from rfl]
    norm_num
  have c3 : ¬ ((hand0 10).y - (hand0 12).y > max 0.02 (0.18 * getHandScale hand0)) := by
    rw [hg, hmax2, show (hand0 10).y = 0 from rfl, show (hand0 12).y = 0 from rfl]
    norm_num
  have c4 : ¬ ((hand0 14).y - (hand0 16).y > max 0.02 (0.18 * getHandScale hand0)) := by
    rw [hg, hmax2, show (hand0 14).y = 0 from rfl, show (hand0 16).y = 0 from rfl]
    norm_num
  have c5 : ¬ ((hand0 18).y - (hand0 20).y > max 0.02 (0.18 * getHandScale hand0)) := by
    rw [hg, hmax2, show (hand0 18).y = 0 from rfl, show (hand0 20).y = 0 from rfl]
    norm_num
  simp only [countExtendedFingers]
  rw [if_pos c1, if_neg c2, if_neg c3, if_neg c4, if_neg c5]

/-- The concrete hand shrunk by 1/100 shows no extended finger. -/
theorem countExtendedFingers_hand0_shrunk :
    countExtendedFingers (scaleHand (1 / 100) hand0) = 0 := by
  have hraw : rawHandScale (scaleHand (1 / 100) hand0) = 1 / 100 * 0.4 := by
    rw [rawHandScale_scaleHand (1 / 100) hand0 (by norm_num), rawHandScale_hand0]
  have hg : getHandScale (scaleHand (1 / 100) hand0) = 0.01 := by
    rw [getHandScale, hraw]
    rw [max_eq_left (by norm_num)]
  have hmax1 : max (0.02 : ℝ) (0.35 * 0.01) = 0.02 := by
    rw [max_eq_left (by norm_num)]
  have hmax2 : max (0.02 : ℝ) (0.18 * 0.01) = 0.02 := by
    rw [max_eq_left (by norm_num)]
  have d1 : (scaleHand (1 / 100) hand0 4).x - (scaleHand (1 / 100) hand0 2).x =
      1 / 100 * ((hand0 4).x - (hand0 2).x) := by simp only [scaleHand_x]; ring
  have c1 : ¬ (|(scaleHand (1 / 100) hand0 4).x - (scaleHand (1 / 100) hand0 2).x| >
      max 0.02 (0.35 * getHandScale (scaleHand (1 / 100) hand0))) := by
    rw [hg, hmax1, d1, show (hand0 4).x = 0.2 from rfl, show (hand0 2).x = 0 from rfl,
      sub_zero, abs_of_pos (by norm_num)]
    norm_num
  have dy : ∀ pip tip : ℕ, (hand0 pip).y = 0 → (hand0 tip).y = 0 →
      ¬ ((scaleHand (1 / 100) hand0 pip).y - (scaleHand (1 / 100) hand0 tip).y >
        max 0.02 (0.18 * getHandScale (scaleHand (1 / 100) hand0))) := by
    intro pip tip hp ht
    have d : (scaleHand (1 / 100) hand0 pip).y - (scaleHand (1 / 100) hand0 tip).y =
        1 / 100 * ((hand0 pip).y - (hand0 tip).y) := by simp only [scaleHand_y]; ring
    rw [hg, hmax2, d, hp, ht]
    norm_num
  simp only [countExtendedFingers]
  rw [if_neg c1, if_neg (dy 6 8 rfl rfl), if_neg (dy 10 12 rfl rfl),
    if_neg (dy 14 16 rfl rfl), if_neg (dy 18 20 rfl rfl)]

/-- Counterexample to C5 as stated: scaling the concrete hand by the positive
factor 1/100 about its wrist changes the extended-finger count from 1 to 0. -/
theorem countExtendedFingers_not_scaleInvariant :
    (0 : ℝ) < 1 / 100 ∧
    countExtendedFingers (scaleHand (1 / 100) hand0) ≠ countExtendedFingers hand0 := by
  refine ⟨by norm_num, ?_⟩
  rw [countExtendedFingers_hand0_shrunk, countExtendedFingers_hand0]
  norm_num

/-- **C5 (amended).** Scaling all landmark coordinates of a hand by a positive
constant factor around its wrist leaves the extended-finger count unchanged
provided neither the original nor the scaled hand engages the absolute clamps,
i.e. both palm measurements are at least 1/9 (so `getHandScale`'s 0.01 floor
and the 0.02 threshold floors are inactive). -/
theorem countExtendedFingers_scaleInvariant (hand : Hand) (s : ℝ)
    (hs : 0 < s) (h1 : 1 / 9 ≤ rawHandScale hand) (h2 : 1 / 9 ≤ s * rawHandScale hand) :
    countExtendedFingers (scaleHand s hand) = countExtendedFingers hand := by
  have hraw : rawHandScale (scaleHand s hand) = s * rawHandScale hand :=
    rawHandScale_scaleHand s hand hs.le
  have hg : getHandScale hand = rawHandScale hand := max_eq_right (by linarith)
  have hg' : getHandScale (scaleHand s hand) = s * rawHandScale hand := by
    rw [getHandScale, hraw]
    exact max_eq_right (by linarith)
  have hf : max (0.02 : ℝ) (0.18 * rawHandScale hand) = 0.18 * rawHandScale hand :=
    max_eq_right (by linarith)
  have hf' : max (0.02 : ℝ) (0.18 * (s * rawHandScale hand)) =
      0.18 * (s * rawHandScale hand) := max_eq_right (by linarith)
  have ht : max (0.02 : ℝ) (0.35 * rawHandScale hand) = 0.35 * rawHandScale hand :=
    max_eq_right (by linarith)
  have ht' : max (0.02 : ℝ) (0.35 * (s * rawHandScale hand)) =
      0.35 * (s * rawHandScale hand) := max_eq_right (by linarith)
  have cthumb : (|(scaleHand s hand 4).x - (scaleHand s hand 2).x| >
      max 0.02 (0.35 * getHandScale (scaleHand s hand))) ↔
      (|(hand 4).x - (hand 2).x| > max 0.02 (0.35 * getHandScale hand)) := by
    have e : (scaleHand s hand 4).x - (scaleHand s hand 2).x =
        s * ((hand 4).x - (hand 2).x) := by simp only [scaleHand_x]; ring
    rw [hg', hg, ht', ht, e, abs_mul, abs_of_pos hs,
      show (0.35 : ℝ) * (s * rawHandScale hand) = s * (0.35 * rawHandScale hand) by ring]
    exact mul_lt_mul_left hs
  have cf : ∀ pip tip : ℕ,
      ((scaleHand s hand pip).y - (scaleHand s hand tip).y >
        max 0.02 (0.18 * getHandScale (scaleHand s hand))) ↔
      ((hand pip).y - (hand tip).y > max 0.02 (0.18 * getHandScale hand)) := by
    intro pip tip
    have e : (scaleHand s hand pip).y - (scaleHand s hand tip).y =
        s * ((hand pip).y - (hand tip).y) := by simp only [scaleHand_y]; ring
    rw [hg', hg, hf', hf, e,
      show (0.18 : ℝ) * (s * rawHandScale hand) = s * (0.18 * rawHandScale hand) by ring]
    exact mul_lt_mul_left hs
  simp only [countExtendedFingers]
  simp only [cthumb, cf 6 8, cf 10 12, cf 14 16, cf 18 20]

/-- Witness for C5 (amended) at the concrete hand and factor 2. -/
theorem countExtendedFingers_scaleInvariant_witness :
    (0 : ℝ) < 2 ∧ 1 / 9 ≤ rawHandScale hand0 ∧ 1 / 9 ≤ 2 * rawHandScale hand0 ∧
    countExtendedFingers (scaleHand 2 hand0) = countExtendedFingers hand0 := by
  have h1 : (1 / 9 : ℝ) ≤ rawHandScale hand0 := by rw [rawHandScale_hand0]; norm_num
  have h2 : (1 / 9 : ℝ) ≤ 2 * rawHandScale hand0 := by rw [rawHandScale_hand0]; norm_num
  exact ⟨by norm_num, h1, h2,
    countExtendedFingers_scaleInvariant hand0 2 (by norm_num) h1 h2⟩

/-! ## Swipe detection (`app.js`, `detectSwipe`)

The module-level mutable cursors `prevHandX`, `swipeStartX`, `swipeStartTime`,
`lastSwipeTime` become one state record; `Date.now()` becomes the explicit
`now` argument (milliseconds). -/

/-- A detected swipe direction. -/
inductive SwipeDir
  | left
  | right
  deriving DecidableEq, Repr

/-- The swipe-tracking cursors (`app.js` lines 1629-1632). -/
structure SwipeState where
  prevHandX : Option ℚ
  swipeStartX : Option ℚ
  swipeStartTime : Option ℚ
  lastSwipeTime : ℚ
  deriving Repr, DecidableEq

/-- Initial values: all cursors `null`, `lastSwipeTime = 0`. -/
def initialSwipeState : SwipeState := ⟨none, none, none, 0⟩

/-- `detectSwipe(hand)` (`app.js` lines 2051-2095) on the wrist x-coordinate
`currentX` at time `now` (ms).  The `=== null` test on `swipeStartX` becomes an
`Option` test; the `updateLog` call is DOM-only and omitted. -/
def detectSwipe (s : SwipeState) (currentX now : ℚ) : Option SwipeDir × SwipeState :=
  if now - s.lastSwipeTime < swipeCooldown then (none, s)
  else if s.swipeStartX = none then
    (none,
      { s with
        swipeStartX := some currentX
        swipeStartTime := some now
        prevHandX := some currentX })
  else
    let startX := s.swipeStartX.getD 0
    let totalDelta := currentX - startX
    let timeDelta := (now - s.swipeStartTime.getD 0) / 1000
    let velocity := |totalDelta| / max timeDelta 0.001
    if |totalDelta| > swipeThreshold ∧ velocity > swipeVelocityMin then
      (if totalDelta > 0 then some SwipeDir.right else some SwipeDir.left,
       ⟨none, none, none, now⟩)
    else if timeDelta > 1.5 then
      (none,
        { s with
          swipeStartX := some currentX
          swipeStartTime := some now
          prevHandX := some currentX })
    else
      (none, { s with prevHandX := some currentX })

/-- Fold of `detectSwipe` over a list of `(wristX, timeMs)` samples. -/
def runSwipe (s : SwipeState) : List (ℚ × ℚ) → List (Option SwipeDir) × SwipeState
  | [] => ([], s)
  | (x, t) :: rest =>
    let r := detectSwipe s x t
    let rs := runSwipe r.2 rest
    (r.1 :: rs.1, rs.2)

/-! ## C7: one swipe per rightward sweep, then cooldown -/

/-- Helper: first sample initialises the tracking window. -/
theorem detectSwipe_step1 :
    detectSwipe initialSwipeState 0 10000 = (none, ⟨some 0, some 0, some 10000, 0⟩) := by
  norm_num [detectSwipe, initialSwipeState, swipeCooldown]

/-- Helper: displacement 0.08 stays below the swipe threshold. -/
theorem detectSwipe_step2 :
    detectSwipe ⟨some 0, some 0, some 10000, 0⟩ 0.08 10100 =
      (none, ⟨some 0.08, some 0, some 10000, 0⟩) := by
  norm_num [detectSwipe, swipeCooldown, swipeThreshold, swipeVelocityMin,
    Option.some_ne_none, show |(2 : ℚ) / 25| = 2 / 25 from abs_of_nonneg (by norm_num)]

/-- Helper: displacement 0.16 at velocity 0.8 fires the right swipe. -/
theorem detectSwipe_step3 :
    detectSwipe ⟨some 0.08, some 0, some 10000, 0⟩ 0.16 10200 =
      (some SwipeDir.right, ⟨none, none, none, 10200⟩) := by
  norm_num [detectSwipe, swipeCooldown, swipeThreshold, swipeVelocityMin,
    Option.some_ne_none, show |(4 : ℚ) / 25| = 4 / 25 from abs_of_nonneg (by norm_num)]

/-- Helper: 200 ms after the swipe the cooldown suppresses detection. -/
theorem detectSwipe_step4 :
    detectSwipe ⟨none, none, none, 10200⟩ 0.24 10400 =
      (none, ⟨none, none, none, 10200⟩) := by
  norm_num [detectSwipe, swipeCooldown]

/-- Helper: 700 ms after the swipe the cooldown still suppresses detection. -/
theorem detectSwipe_step5 :
    detectSwipe ⟨none, none, none, 10200⟩ 0.32 10900 =
      (none, ⟨none, none, none, 10200⟩) := by
  norm_num [detectSwipe, swipeCooldown]

/-- **C7.** A wrist trajectory moving monotonically rightward past the 0.15
threshold with average velocity above 0.15 emits exactly one right-swipe event
(concrete five-sample trace: one `some right`, all other samples `none`);
during the 1000 ms cooldown window after any emitted swipe every call returns
`none` and leaves the state untouched; and any emitted swipe stamps
`lastSwipeTime` with the current time, which starts that cooldown window. -/
theorem detectSwipe_once_per_sweep :
    (runSwipe initialSwipeState
      [(0, 10000), (0.08, 10100), (0.16, 10200), (0.24, 10400), (0.32, 10900)]).1 =
      [none, none, some SwipeDir.right, none, none] ∧
    (∀ (s : SwipeState) (x now : ℚ), now - s.lastSwipeTime < swipeCooldown →
      detectSwipe s x now = (none, s)) ∧
    (∀ (s : SwipeState) (x now : ℚ) (d : SwipeDir),
      (detectSwipe s x now).1 = some d → (detectSwipe s x now).2.lastSwipeTime = now) := by
  refine ⟨?_, ?_, ?_⟩
  · simp only [runSwipe, detectSwipe_step1, detectSwipe_step2, detectSwipe_step3,
      detectSwipe_step4, detectSwipe_step5]
  · intro s x now h
    unfold detectSwipe
    rw [if_pos h]
  · intro s x now d h
    unfold detectSwipe at h ⊢
    split_ifs at h ⊢ <;> simp_all
    split_ifs at h ⊢ <;> simp_all

/-- Witness for C7: the cooldown clause at a concrete post-swipe state, and the
timestamp clause at the concrete firing sample. -/
theorem detectSwipe_once_per_sweep_witness :
    detectSwipe ⟨none, none, none, 10200⟩ 0.5 10500 = (none, ⟨none, none, none, 10200⟩) ∧
    (detectSwipe ⟨some 0.08, some 0, some 10000, 0⟩ 0.16 10200).2.lastSwipeTime = 10200 := by
  refine ⟨?_, ?_⟩
  · exact detectSwipe_once_per_sweep.2.1 ⟨none, none, none, 10200⟩ 0.5 10500
      (by norm_num [swipeCooldown])
  · exact detectSwipe_once_per_sweep.2.2 ⟨some 0.08, some 0, some 10000, 0⟩ 0.16 10200
      SwipeDir.right (by rw [detectSwipe_step3])

/-! ## Rule-based gesture classifier (`app.js`, `processGestures` lines 2226-2301)

The fixed-priority decision tree that assigns `ruleBasedGesture = {name,
confidence}` from the geometric predicates.  The embedding takes the predicate
results (`fingerCount`, `isFist`, `isPinching`, `isPeaceSign`, the swipe
outcome) as inputs and additionally records, as a `Bool`, whether the branch
invokes `handleExpansionRotation` — the only call that drives the rotation
speed from the palm twist angular velocity. -/

/-- `ruleBasedGesture`: a gesture name with its designer-assigned confidence. -/
structure RuleGesture where
  name : String
  confidence : ℚ
  deriving Repr, DecidableEq

/-- The classifier decision tree.  Returns the rule-based gesture and whether
the branch calls `handleExpansionRotation` (palm-twist-driven rotation). -/
def classifyRuleGesture (fingerCount : ℕ) (isFist isPinching isPeaceSign : Bool)
    (swipeDirection : Option SwipeDir) : RuleGesture × Bool :=
  if fingerCount = 5 then
    match swipeDirection with
    | some d =>
        (⟨if d = SwipeDir.right then "🖐️➡️ Swipe Right" else "🖐️⬅️ Swipe Left", 0.9⟩, false)
    | none => (⟨"🖐️ Rotate + Expand", 0.85⟩, true)
  else if isFist then (⟨"✊ Collapse", 0.9⟩, false)
  else if isPinching then (⟨"👌 Pinch (Attract)", 0.85⟩, false)
  else if isPeaceSign then (⟨"✌️ Peace (Pulse)", 0.85⟩, false)
  else if fingerCount = 1 then (⟨"☝️ One Finger (Collapse)", 0.8⟩, false)
  else (⟨"🤚 " ++ toString fingerCount ++ " Fingers", 0.7⟩, false)

/-! ## C4: the fist branch -/

/-- C4 fails on the code: with fewer than five fingers and a detected fist the
classifier emits the collapse gesture, not a rotate gesture, and the fist
branch never invokes the palm-twist rotation handler (the source even resets
`prevFistAngle` there). -/
theorem fist_branch_is_collapse_not_rotate :
    (classifyRuleGesture 0 true false false none).1.name = "✊ Collapse" ∧
    (classifyRuleGesture 0 true false false none).2 = false ∧
    "✊ Collapse" ≠ "🖐️ Rotate + Expand" := by
  refine ⟨rfl, rfl, by decide⟩

/-- **C4 (amended).** In the fixed-priority decision tree, when the primary
hand does not have five fingers extended and is detected as a fist, the
classified gesture is the collapse gesture '✊ Collapse' with confidence 0.9
and the branch does not drive rotation from the palm twist; the palm-twist
rotation handler is invoked exactly by the five-fingers-no-swipe branch
('🖐️ Rotate + Expand'). -/
theorem classifyRuleGesture_fist_branch (fingerCount : ℕ)
    (isFist isPinching isPeaceSign : Bool) (swipeDirection : Option SwipeDir) :
    (fingerCount ≠ 5 → isFist = true →
      (classifyRuleGesture fingerCount isFist isPinching isPeaceSign swipeDirection).1 =
        ⟨"✊ Collapse", 0.9⟩ ∧
      (classifyRuleGesture fingerCount isFist isPinching isPeaceSign swipeDirection).2 =
        false) ∧
    ((classifyRuleGesture fingerCount isFist isPinching isPeaceSign swipeDirection).2 =
        true ↔
      fingerCount = 5 ∧ swipeDirection = none) := by
  constructor
  · intro h5 hf
    unfold classifyRuleGesture
    rw [if_neg h5, if_pos hf]
    exact ⟨rfl, rfl⟩
  · constructor
    · intro h
      by_cases h5 : fingerCount = 5
      · cases swipeDirection with
        | none => exact ⟨h5, rfl⟩
        | some d =>
          exfalso
          unfold classifyRuleGesture at h
          rw [if_pos h5] at h
          simp at h
      · exfalso
        unfold classifyRuleGesture at h
        rw [if_neg h5] at h
        split_ifs at h <;> simp_all
    · rintro ⟨h5, hsw⟩
      subst h5
      subst hsw
      unfold classifyRuleGesture
      rw [if_pos rfl]

/-- Witness for C4 (amended) at a concrete fist observation. -/
theorem classifyRuleGesture_fist_branch_witness :
    (classifyRuleGesture 0 true false false none).1 = ⟨"✊ Collapse", 0.9⟩ ∧
    ((classifyRuleGesture 5 false false false none).2 = true ↔
      (5 : ℕ) = 5 ∧ (none : Option SwipeDir) = none) := by
  exact ⟨((classifyRuleGesture_fist_branch 0 true false false none).1
      (by norm_num) rfl).1,
    (classifyRuleGesture_fist_branch 5 false false false none).2⟩

/-! ## Rotation control target (`app.js`, `handleExpansionRotation`,
`decayRotationTarget` and the reset paths) -/

/-- `THREE.MathUtils.clamp(value, min, max)`. -/
def clamp (value minValue maxValue : ℚ) : ℚ := max minValue (min maxValue value)

/-- The effect of `handleExpansionRotation` (`app.js` lines 1850-1873) on
`targetRotationSpeed`, parametrised by the computed `rotationVelocity`
(`deltaAngle / max(deltaTime, 0.016)`, an arbitrary rational here): below the
minimum velocity (or on the `prevFistAngle === null` early return) the target
is unchanged, otherwise it is assigned the clamped, multiplied velocity. -/
def handleExpansionRotationUpdate (rotationVelocity target : ℚ) : ℚ :=
  if |rotationVelocity| < minRotationVelocity then target
  else clamp (rotationVelocity * fistRotationMultiplier)
    (-maxGestureRotationSpeed) maxGestureRotationSpeed

/-- `decayRotationTarget()` (`app.js` lines 1624-1626). -/
def decayRotationTarget (target : ℚ) : ℚ :=
  target + (baseRotationSpeed - target) * rotationIdleDecay

/-- Values `targetRotationSpeed` can reach: its initial value, any
palm-twist-driven assignment, any idle decay, and the explicit resets to the
base speed on the no-hands and gestures-disabled paths. -/
inductive RotationReachable : ℚ → Prop
  | init : RotationReachable baseRotationSpeed
  | rotate (v t : ℚ) : RotationReachable t →
      RotationReachable (handleExpansionRotationUpdate v t)
  | decay (t : ℚ) : RotationReachable t → RotationReachable (decayRotationTarget t)
  | reset (t : ℚ) : RotationReachable t → RotationReachable baseRotationSpeed

/-! ## C10: the rotation target is bounded -/

/-- **C10.** Every reachable value of `targetRotationSpeed` has magnitude at
most `maxGestureRotationSpeed = 3.0`: the initial base speed 0.05 lies inside
the interval, `handleExpansionRotation` assigns only values clamped into
[-3, 3], the idle decay is a convex step toward 0.05, and the reset paths
return to 0.05. -/
theorem targetRotationSpeed_bounded (t : ℚ) (h : RotationReachable t) :
    |t| ≤ maxGestureRotationSpeed := by
  induction h with
  | init => norm_num [baseRotationSpeed, maxGestureRotationSpeed, abs_le]
  | rotate v t _ ih =>
    unfold handleExpansionRotationUpdate
    split_ifs with hv
    · exact ih
    · rw [abs_le]
      constructor
      · exact le_max_left _ _
      · exact max_le (by norm_num [maxGestureRotationSpeed]) (min_le_left _ _)
  | decay t _ ih =>
    rw [abs_le] at ih ⊢
    unfold decayRotationTarget
    constructor
    · norm_num [baseRotationSpeed, rotationIdleDecay, maxGestureRotationSpeed] at ih ⊢
      linarith
    · norm_num [baseRotationSpeed, rotationIdleDecay, maxGestureRotationSpeed] at ih ⊢
      linarith
  | reset t _ _ => norm_num [baseRotationSpeed, maxGestureRotationSpeed, abs_le]

/-- Witness for C10 at a concrete reachable value (one idle-decay step after
start-up). -/
theorem targetRotationSpeed_bounded_witness :
    |decayRotationTarget baseRotationSpeed| ≤ maxGestureRotationSpeed :=
  targetRotationSpeed_bounded _ (RotationReachable.decay _ RotationReachable.init)

/-! ## Gravity-mode physics step (no integrator exists under `src/`; only the
physics documentation does)

Modelled from the spec: the Gravity regime of §4.7 with the documented
constants (gravity 0.25 downward, floor at y = -25, bounce retention 0.8,
90% horizontal damping on impact, per-frame friction retention 0.995,
timestep capped at 0.1 s), with turbulence passed in as an explicit jitter so
the step is deterministic. -/

/-- Modelled from the spec: gravity acceleration constant. -/
def gravityAccel : ℚ := 0.25

/-- Modelled from the spec: the floor plane. -/
def floorY : ℚ := -25

/-- Modelled from the spec: bounce energy retention. -/
def bounceRetention : ℚ := 0.8

/-- Modelled from the spec: horizontal velocity retained on impact
(90% reduction). -/
def horizontalDamping : ℚ := 0.1

/-- Modelled from the spec: per-frame friction retention. -/
def frictionRetention : ℚ := 0.995

/-- Modelled from the spec: the timestep cap. -/
def maxTimestep : ℚ := 0.1

/-- A 3-vector over ℚ. -/
structure Vec3Q where
  x : ℚ
  y : ℚ
  z : ℚ
  deriving Repr, DecidableEq

/-- Modelled from the spec: velocity after applying gravity and turbulence and
then friction (turbulence is applied before damping so it is itself damped). -/
def gravityPreVelocity (vel : Vec3Q) (dt : ℚ) (jitter : Vec3Q) : Vec3Q :=
  let dtc := min dt maxTimestep
  ⟨(vel.x + jitter.x) * frictionRetention,
   (vel.y - gravityAccel * dtc + jitter.y) * frictionRetention,
   (vel.z + jitter.z) * frictionRetention⟩

/-- Modelled from the spec: position after integrating the damped velocity
over the capped timestep. -/
def gravityPrePosition (pos vel : Vec3Q) (dt : ℚ) (jitter : Vec3Q) : Vec3Q :=
  let dtc := min dt maxTimestep
  let v := gravityPreVelocity vel dt jitter
  ⟨pos.x + v.x * dtc, pos.y + v.y * dtc, pos.z + v.z * dtc⟩

/-- Modelled from the spec: one Gravity-mode tick — integrate, then on
crossing the floor plane clamp to the floor, reflect the vertical velocity
scaled by the bounce retention and damp the horizontal velocity. -/
def gravityStep (pos vel : Vec3Q) (dt : ℚ) (jitter : Vec3Q) : Vec3Q × Vec3Q :=
  let v := gravityPreVelocity vel dt jitter
  let p := gravityPrePosition pos vel dt jitter
  if p.y < floorY then
    (⟨p.x, floorY, p.z⟩,
     ⟨v.x * horizontalDamping, -v.y * bounceRetention, v.z * horizontalDamping⟩)
  else (p, v)

/-! ## C6: floor bounce without tunneling -/

/-- **C6.** In Gravity mode a particle whose integrated position crosses the
floor plane during a tick ends the tick with its vertical velocity reversed
and scaled by the bounce-retention constant, its horizontal velocity damped by
the fixed factor, and its position on the floor; and for every input the tick
ends on or above the floor (no tunneling in a single capped timestep). -/
theorem gravityStep_floor_bounce (pos vel : Vec3Q) (dt : ℚ) (jitter : Vec3Q) :
    floorY ≤ (gravityStep pos vel dt jitter).1.y ∧
    ((gravityPrePosition pos vel dt jitter).y < floorY →
      (gravityStep pos vel dt jitter).2.y =
        -(gravityPreVelocity vel dt jitter).y * bounceRetention ∧
      (gravityStep pos vel dt jitter).2.x =
        (gravityPreVelocity vel dt jitter).x * horizontalDamping ∧
      (gravityStep pos vel dt jitter).2.z =
        (gravityPreVelocity vel dt jitter).z * horizontalDamping ∧
      (gravityStep pos vel dt jitter).1.y = floorY) := by
  constructor
  · simp only [gravityStep]
    split_ifs with hc
    · exact le_refl floorY
    · exact le_of_not_lt hc
  · intro hc
    simp only [gravityStep]
    rw [if_pos hc]
    exact ⟨rfl, rfl, rfl, rfl⟩

/-- Witness for C6: a particle just above the floor falling at 12 units/s over
a 0.1 s tick crosses the plane and is bounced back onto it. -/
theorem gravityStep_floor_bounce_witness :
    (gravityPrePosition ⟨0, -24, 0⟩ ⟨2, -12, 0⟩ 0.1 ⟨0, 0, 0⟩).y < floorY ∧
    (gravityStep ⟨0, -24, 0⟩ ⟨2, -12, 0⟩ 0.1 ⟨0, 0, 0⟩).1.y = floorY := by
  have hc : (gravityPrePosition ⟨0, -24, 0⟩ ⟨2, -12, 0⟩ 0.1 ⟨0, 0, 0⟩).y < floorY := by
    norm_num [gravityPrePosition, gravityPreVelocity, gravityAccel, frictionRetention,
      maxTimestep, floorY, min_self]
  exact ⟨hc,
    ((gravityStep_floor_bounce ⟨0, -24, 0⟩ ⟨2, -12, 0⟩ 0.1 ⟨0, 0, 0⟩).2 hc).2.2.2⟩

/-! ## Gesture fusion (`src/ai/enhanced-detection.js`,
`EnhancedGestureDetector.detect`, and the AI block of `processGestures`)

The asynchronous ML path is embedded as an explicit outcome value: the
classifier either rejects (an `Except.error`, caught by the `.catch` at the
call site) or resolves to `some`/`none` (the `classify` result, `null` on
internal failure or when the model is not ready). -/

/-- The `{gesture, confidence}` object returned by `GestureClassifier.classify`
(the `probabilities` metadata is not consulted by the fusion step). -/
structure AIResult where
  gesture : String
  confidence : ℚ
  deriving Repr, DecidableEq

/-- The `{gesture, confidence, source}` object returned by
`EnhancedGestureDetector.detect` (the `metadata` field is omitted). -/
structure DetectResult where
  gesture : String
  confidence : ℚ
  source : String
  deriving Repr, DecidableEq

/-- `EnhancedGestureDetector.detect(mediapipeResult, ruleBasedGesture)`
(`enhanced-detection.js` lines 25-65): falls back to the rule-based gesture
unless the detector is initialised, AI is in use, landmarks are present, and
the classifier resolves non-null with confidence strictly above 0.8. -/
def enhancedDetect (isInitialized useAI landmarksNonempty : Bool)
    (ruleBasedGesture : RuleGesture) (aiGesture : Option AIResult) : DetectResult :=
  if !isInitialized then
    ⟨ruleBasedGesture.name, ruleBasedGesture.confidence, "rule-based"⟩
  else if !useAI || !landmarksNonempty then
    ⟨ruleBasedGesture.name, ruleBasedGesture.confidence, "rule-based"⟩
  else
    match aiGesture with
    | some ai =>
      if ai.confidence > 0.8 then ⟨ai.gesture, ai.confidence, "AI"⟩
      else ⟨ruleBasedGesture.name, ruleBasedGesture.confidence, "rule-based"⟩
    | none => ⟨ruleBasedGesture.name, ruleBasedGesture.confidence, "rule-based"⟩

/-- The AI-enhancement block of `processGestures` (`app.js` lines 2303-2316):
on a rejected promise the `.catch` only logs and `currentGesture` keeps the
rule-based value; on resolution the AI label is substituted only when the
source is AI and the confidence strictly exceeds 0.85. -/
def appAIFusion (currentGesture : String) (isInitialized useAI landmarksNonempty : Bool)
    (ruleBasedGesture : RuleGesture)
    (mlOutcome : Except String (Option AIResult)) : String :=
  match mlOutcome with
  | Except.error _ => currentGesture
  | Except.ok aiGesture =>
    let aiResult := enhancedDetect isInitialized useAI landmarksNonempty
      ruleBasedGesture aiGesture
    if aiResult.source = "AI" ∧ aiResult.confidence > 0.85 then
      "🤖 " ++ aiResult.gesture
    else currentGesture

/-- Case equation: detector not initialised. -/
theorem enhancedDetect_fallback_notInit (useAI lm : Bool) (rb : RuleGesture)
    (ai : Option AIResult) :
    enhancedDetect false useAI lm rb ai =
      ⟨rb.name, rb.confidence, "rule-based"⟩ := rfl

/-- Case equation: model not in use. -/
theorem enhancedDetect_fallback_noAI (lm : Bool) (rb : RuleGesture)
    (ai : Option AIResult) :
    enhancedDetect true false lm rb ai = ⟨rb.name, rb.confidence, "rule-based"⟩ := rfl

/-- Case equation: no landmarks in the frame. -/
theorem enhancedDetect_fallback_noLm (rb : RuleGesture) (ai : Option AIResult) :
    enhancedDetect true true false rb ai = ⟨rb.name, rb.confidence, "rule-based"⟩ := rfl

/-- Case equation: classifier returned null. -/
theorem enhancedDetect_none (rb : RuleGesture) :
    enhancedDetect true true true rb none = ⟨rb.name, rb.confidence, "rule-based"⟩ := rfl

/-- Case equation: classifier returned a result; substitution is gated on the
confidence strictly exceeding 0.8. -/
theorem enhancedDetect_some (rb : RuleGesture) (a : AIResult) :
    enhancedDetect true true true rb (some a) =
      if a.confidence > 0.8 then ⟨a.gesture, a.confidence, "AI"⟩
      else ⟨rb.name, rb.confidence, "rule-based"⟩ := rfl

/-! ## C9: fusion substitutes only above the acceptance threshold and
tolerates errors -/

/-- **C9.** The fusion step marks its output as the ML substitution exactly
when the detector is initialised and using AI, landmarks are present, and the
external classifier returned a non-null result whose confidence strictly
exceeds the 0.8 acceptance threshold; in every other case the rule-based
gesture and confidence stand; and a rejected (throwing) ML path is caught at
the call site, leaving the rule-based label in effect with no propagated
error. -/
theorem gestureFusion_threshold (isInitialized useAI landmarksNonempty : Bool)
    (rb : RuleGesture) (ai : Option AIResult) (e : String) :
    ((enhancedDetect isInitialized useAI landmarksNonempty rb ai).source = "AI" ↔
      isInitialized = true ∧ useAI = true ∧ landmarksNonempty = true ∧
        ∃ a, ai = some a ∧ a.confidence > 0.8) ∧
    ((enhancedDetect isInitialized useAI landmarksNonempty rb ai).source ≠ "AI" →
      (enhancedDetect isInitialized useAI landmarksNonempty rb ai).gesture = rb.name ∧
      (enhancedDetect isInitialized useAI landmarksNonempty rb ai).confidence =
        rb.confidence) ∧
    appAIFusion rb.name isInitialized useAI landmarksNonempty rb
      (Except.error e) = rb.name := by
  have hra : ("rule-based" : String) ≠ "AI" := by decide
  refine ⟨?_, ?_, rfl⟩
  · cases isInitialized with
    | false => simp [enhancedDetect_fallback_notInit, hra]
    | true => cases useAI with
      | false => simp [enhancedDetect_fallback_noAI, hra]
      | true => cases landmarksNonempty with
        | false => simp [enhancedDetect_fallback_noLm, hra]
        | true => cases ai with
          | none => simp [enhancedDetect_none, hra]
          | some a =>
            by_cases hc : a.confidence > 0.8
            · rw [enhancedDetect_some, if_pos hc]
              simp [hc]
            · rw [enhancedDetect_some, if_neg hc]
              simp [hra, hc]
  · intro h
    cases isInitialized with
    | false => exact ⟨rfl, rfl⟩
    | true => cases useAI with
      | false => exact ⟨rfl, rfl⟩
      | true => cases landmarksNonempty with
        | false => exact ⟨rfl, rfl⟩
        | true => cases ai with
          | none => exact ⟨rfl, rfl⟩
          | some a =>
            by_cases hc : a.confidence > 0.8
            · rw [enhancedDetect_some, if_pos hc] at h
              exact absurd rfl h
            · rw [enhancedDetect_some, if_neg hc]
              exact ⟨rfl, rfl⟩

/-- Witness for C9: above-threshold AI result is substituted, and a rejection
leaves the rule-based label. -/
theorem gestureFusion_threshold_witness :
    (enhancedDetect true true true ⟨"Rule", 0.5⟩ (some ⟨"fist", 0.9⟩)).source = "AI" ∧
    appAIFusion "Rule" true true true ⟨"Rule", 0.5⟩ (Except.error "model failure") =
      "Rule" := by
  refine ⟨?_, ?_⟩
  · exact (gestureFusion_threshold true true true ⟨"Rule", 0.5⟩
      (some ⟨"fist", 0.9⟩) "model failure").1.mpr
      ⟨rfl, rfl, rfl, ⟨"fist", 0.9⟩, rfl, by norm_num⟩
  · exact (gestureFusion_threshold true true true ⟨"Rule", 0.5⟩
      (some ⟨"fist", 0.9⟩) "model failure").2.2

/-! ## No-hands idle behaviour (`app.js`, `processGestures` lines 2163-2199)

The module-level smoothed control signals become one record; `Date.now()`
becomes the explicit `nowMs` argument.  `Math.sin` is `Real.sin`, so this
section works over `ℝ`. -/

/-- A 3-vector over `ℝ` (`THREE.Vector3`). -/
structure Vec3R where
  x : ℝ
  y : ℝ
  z : ℝ

/-- Euclidean length of a `THREE.Vector3` (`.length()`). -/
noncomputable def Vec3R.length (v : Vec3R) : ℝ := Real.sqrt (v.x ^ 2 + v.y ^ 2 + v.z ^ 2)

/-- `Vector3.multiplyScalar`. -/
noncomputable def Vec3R.multiplyScalar (v : Vec3R) (s : ℝ) : Vec3R :=
  ⟨v.x * s, v.y * s, v.z * s⟩

/-- The smoothed control signals touched by the no-hands branch. -/
structure ControlSignals where
  smoothedExpansion : ℝ
  smoothedSwirl : ℝ
  smoothedWiggle : ℝ
  smoothedExplosion : ℝ
  freezeTimeTarget : ℝ
  smoothedAttractorStrength : ℝ
  smoothedWindForce : Vec3R
  smoothedPulse : ℝ
  targetRotationSpeed : ℝ

/-- The `hands.length === 0` branch of `processGestures` with gesture detection
enabled: with `t = nowMs * 0.001` it sets the idle oscillation for expansion
and swirl, zeroes wiggle/explosion, multiplies attractor strength, wind force
and pulse by 0.95, and resets the rotation target to the base speed (the
subsequent `decayRotationTarget` call leaves the base speed fixed).  The
`updateLog`/DOM writes and the `commitGestureState` call on the separate
gesture state are omitted here. -/
noncomputable def processGesturesNoHands (s : ControlSignals) (nowMs : ℝ) : ControlSignals :=
  let t := nowMs * 0.001
  { s with
    smoothedExpansion := 0.8 + Real.sin t * 0.2
    smoothedSwirl := Real.sin (t * 0.5) * 0.5
    smoothedWiggle := 0
    smoothedExplosion := 0
    freezeTimeTarget := 1.0
    smoothedAttractorStrength := s.smoothedAttractorStrength * 0.95
    smoothedWindForce := s.smoothedWindForce.multiplyScalar 0.95
    smoothedPulse := s.smoothedPulse * 0.95
    targetRotationSpeed := (baseRotationSpeed : ℝ) }

/-! ## C8: idle decay and deterministic oscillation -/

/-- Helper: the vector length scales by a nonnegative scalar. -/
theorem Vec3R_length_multiplyScalar (v : Vec3R) (s : ℝ) (hs : 0 ≤ s) :
    (v.multiplyScalar s).length = s * v.length := by
  unfold Vec3R.length Vec3R.multiplyScalar
  rw [show (v.x * s) ^ 2 + (v.y * s) ^ 2 + (v.z * s) ^ 2 =
      s ^ 2 * (v.x ^ 2 + v.y ^ 2 + v.z ^ 2) by ring,
    Real.sqrt_mul (sq_nonneg s), Real.sqrt_sq hs]

/-- **C8.** On a no-hands frame with gesture detection enabled, the attractor
strength, the wind-force magnitude and the pulse are each multiplied by the
constant 0.95 < 1 (so their magnitudes shrink by that fixed ratio toward zero
on every successive no-hands frame), while expansion and swirl are set to the
deterministic oscillation `0.8 + 0.2*sin t` and `0.5*sin(0.5*t)` of the clock
seconds `t = nowMs/1000`. -/
theorem processGesturesNoHands_idle (s : ControlSignals) (nowMs : ℝ) :
    (processGesturesNoHands s nowMs).smoothedExpansion =
      0.8 + 0.2 * Real.sin (nowMs * 0.001) ∧
    (processGesturesNoHands s nowMs).smoothedSwirl =
      0.5 * Real.sin (0.5 * (nowMs * 0.001)) ∧
    (processGesturesNoHands s nowMs).smoothedAttractorStrength =
      0.95 * s.smoothedAttractorStrength ∧
    |(processGesturesNoHands s nowMs).smoothedAttractorStrength| =
      0.95 * |s.smoothedAttractorStrength| ∧
    (processGesturesNoHands s nowMs).smoothedWindForce.length =
      0.95 * s.smoothedWindForce.length ∧
    (processGesturesNoHands s nowMs).smoothedPulse = 0.95 * s.smoothedPulse ∧
    |(processGesturesNoHands s nowMs).smoothedPulse| = 0.95 * |s.smoothedPulse| ∧
    (0.95 : ℝ) < 1 := by
  refine ⟨?_, ?_, ?_, ?_, ?_, ?_, ?_, by norm_num⟩
  · show 0.8 + Real.sin (nowMs * 0.001) * 0.2 = _
    ring
  · show Real.sin (nowMs * 0.001 * 0.5) * 0.5 = _
    rw [mul_comm (nowMs * 0.001) 0.5]
    ring
  · show s.smoothedAttractorStrength * 0.95 = _
    ring
  · show |s.smoothedAttractorStrength * 0.95| = _
    rw [abs_mul, abs_of_pos (by norm_num : (0:ℝ) < 0.95)]
    ring
  · show (s.smoothedWindForce.multiplyScalar 0.95).length = _
    rw [Vec3R_length_multiplyScalar s.smoothedWindForce 0.95 (by norm_num)]
  · show s.smoothedPulse * 0.95 = _
    ring
  · show |s.smoothedPulse * 0.95| = _
    rw [abs_mul, abs_of_pos (by norm_num : (0:ℝ) < 0.95)]
    ring

end Hands


